import Mathlib

/-!
Verification of the Cure-Link resource-listing query pipeline.

The definitions below are a shallow embedding of the JavaScript source:
  - src/middleware/search.middleware.js   (filter composition, haversine
    distance, distance annotation, distance sort, result materialization)
  - src/middleware/paginate.middleware.js (page/limit parsing, the two
    pagination strategies, pagination metadata)
  - src/routes/medicine.route.js          (the middleware chain of the
    listing routes)
  - src/controllers/medicine.controller.js (response envelope assembly)

JavaScript strings are modelled as lists of characters, JavaScript numbers
arising from request parsing as rationals (with absence standing for NaN
where the source checks isNaN), and the floating-point trigonometry of the
haversine helper over the reals.  JavaScript Array.prototype.sort with a
consistent comparator is specified to be a stable sort; it is modelled by
insertion sort ordered by the predicate "comparator(a, b) <= 0", which is
the unique stable sort for that ordering.
-/

namespace CureLink

/-- A JavaScript string, modelled as its list of characters. -/
abbrev JSStr := List Char

/-- Conversion from a Lean string literal to the model of JS strings. -/
def jstr (s : String) : JSStr := s.data

/-- Whitespace test used by the models of trim and parseInt. -/
def isWSChar (c : Char) : Bool :=
  c = ' ' || c = '\t' || c = '\n' || c = '\r'

/-- Model of String.prototype.trim: strip whitespace from both ends. -/
def jtrim (s : JSStr) : JSStr :=
  ((s.dropWhile isWSChar).reverse.dropWhile isWSChar).reverse

/-- Lower-case a JS string (model of the case folding done by the i flag). -/
def jlower (s : JSStr) : JSStr := s.map Char.toLower

/-- Numeric value of a list of decimal digit characters. -/
def natOfDigits (ds : List Char) : Nat :=
  ds.foldl (fun acc c => acc * 10 + (c.toNat - 48)) 0

/-- Model of JavaScript parseInt on a string: skip leading whitespace, read
an optional sign and then leading decimal digits; the result is none when no
digits are found (parseInt returns NaN there). -/
def parseIntCore (s : JSStr) : Option Int :=
  match s.dropWhile isWSChar with
  | '-' :: rest =>
      let ds := rest.takeWhile Char.isDigit
      if ds.isEmpty then none else some (-(natOfDigits ds : Int))
  | '+' :: rest =>
      let ds := rest.takeWhile Char.isDigit
      if ds.isEmpty then none else some ((natOfDigits ds : Int))
  | other =>
      let ds := other.takeWhile Char.isDigit
      if ds.isEmpty then none else some ((natOfDigits ds : Int))

/-- parseInt applied to an optional query parameter; parseInt(undefined) is
NaN, modelled as none. -/
def parseIntJS (q : Option JSStr) : Option Int :=
  match q with
  | none => none
  | some s => parseIntCore s

/-- Model of the JavaScript fallback `v || d` on a parsed integer: NaN
(none) and 0 are falsy and yield the default. -/
def jsOrInt (v : Option Int) (d : Int) : Int :=
  match v with
  | none => d
  | some n => if n = 0 then d else n

/-- The combined `parseInt(raw) || d` idiom of the paginator. -/
def intParam (q : Option JSStr) (d : Int) : Int :=
  jsOrInt (parseIntJS q) d

/-- Model of the JavaScript fallback `s || d` on an optional string: an
absent or empty string yields the default. -/
def jsOrStr (v : Option JSStr) (d : JSStr) : JSStr :=
  match v with
  | none => d
  | some [] => d
  | some s => s

/-- Effective sort field: `req.query.sort || 'createdAt'`. -/
def sortByOf (v : Option JSStr) : JSStr := jsOrStr v (jstr "createdAt")

/-- Effective sort direction: `req.query.order === 'desc' ? -1 : 1`. -/
def orderOf (v : Option JSStr) : Int :=
  if v = some (jstr "desc") then -1 else 1

/-- Model of JavaScript parseFloat: optional sign, integer digits, and an
optional fraction after a decimal point; none when no digit is found. -/
def parseFloatCore (s : JSStr) : Option ℚ :=
  let s1 := s.dropWhile isWSChar
  let signed : Bool × JSStr :=
    match s1 with
    | '-' :: rest => (true, rest)
    | '+' :: rest => (false, rest)
    | other => (false, other)
  let ds := signed.2.takeWhile Char.isDigit
  let rest := signed.2.dropWhile Char.isDigit
  let fds : JSStr :=
    match rest with
    | '.' :: fs => fs.takeWhile Char.isDigit
    | _ => []
  if ds.isEmpty && fds.isEmpty then none
  else
    let mag : ℚ := (natOfDigits ds : ℚ) + (natOfDigits fds : ℚ) / ((10 : ℚ) ^ fds.length)
    some (if signed.1 then -mag else mag)

/-- parseFloat applied to an optional query parameter. -/
def parseFloatJS (q : Option JSStr) : Option ℚ :=
  match q with
  | none => none
  | some s => parseFloatCore s

/-- JavaScript truthiness of an optional string: undefined and the empty
string are falsy. -/
def strTruthy (q : Option JSStr) : Bool :=
  match q with
  | none => false
  | some [] => false
  | some (_ :: _) => true

/-- Model of Array.prototype.slice(s, e): negative indices count from the
end of the array, indices are clamped into range, and an empty slice results
when the clamped end does not exceed the clamped start. -/
def jsSlice {α : Type} (xs : List α) (s e : Int) : List α :=
  let n : Int := (xs.length : Int)
  let rs : Int := if s < 0 then max (n + s) 0 else min s n
  let re : Int := if e < 0 then max (n + e) 0 else min e n
  (xs.drop rs.toNat).take (re - rs).toNat

/-- Model of `Math.ceil(t / l)` on integer operands, as used for the
totalPages computation (the paginator guarantees a nonzero divisor, since
0 is falsy and falls back to the default page size). -/
def jsCeilDiv (t l : Int) : Int :=
  if 0 < l then -((-t) / l)
  else if l < 0 then -(t / (-l))
  else 0

/-! ### A fragment of the regular-expression engine

The search middleware compiles the raw trimmed search term with
`new RegExp(term, 'i')`.  The fragment of the pattern language needed by
the claims is modelled: literal characters and the one-or-more quantifier
`+` applied to a single character.  The i flag is modelled by case folding
both the pattern and the subject. -/

/-- A compiled pattern token: a literal character or `c+`. -/
inductive RTok : Type where
  | lit (c : Char)
  | plus (c : Char)
deriving DecidableEq

/-- Compile a pattern string into tokens: a character followed by `+`
becomes a one-or-more token, any other character is a literal. -/
def compilePattern : List Char → List RTok
  | [] => []
  | c :: '+' :: rest2 => RTok.plus c :: compilePattern rest2
  | c :: rest => RTok.lit c :: compilePattern rest

/-- Whether the token list matches some prefix of the subject. -/
def rmatchHere : List RTok → List Char → Bool
  | [], _ => true
  | RTok.lit _ :: _, [] => false
  | RTok.lit c :: ts, x :: xs => x = c && rmatchHere ts xs
  | RTok.plus _ :: _, [] => false
  | RTok.plus c :: ts, x :: xs =>
      x = c && (rmatchHere ts xs || rmatchHere (RTok.plus c :: ts) xs)

/-- Whether the token list matches at some position of the subject (the
unanchored test performed by RegExp.prototype.test). -/
def rtest (ts : List RTok) : List Char → Bool
  | [] => rmatchHere ts []
  | x :: xs => rmatchHere ts (x :: xs) || rtest ts xs

/-- The case-insensitive regex test the middleware applies to a field:
`new RegExp(pat, 'i').test(subject)` on the modelled fragment. -/
def iRegexTest (pat subject : JSStr) : Bool :=
  rtest (compilePattern (jlower pat)) (jlower subject)

/-- Case-insensitive literal-substring containment (what an escaped search
term would match). -/
def containsCI (pat subject : JSStr) : Bool :=
  rtest ((jlower pat).map RTok.lit) (jlower subject)

/-! ### Data model: pharmacies, medicines, ranked records -/

/-- An owner location: the latitude/longitude pair stored on a pharmacy. -/
structure PhLoc : Type where
  latitude : ℚ
  longitude : ℚ
deriving DecidableEq

/-- The populated pharmacy reference (`populate('pharmacyId',
'pharmacyName location')`). -/
structure Pharmacy : Type where
  pharmacyName : JSStr
  location : Option PhLoc
deriving DecidableEq

/-- A catalog record: the medicine fields relevant to the listing pipeline. -/
structure Medicine : Type where
  name : JSStr
  description : JSStr
  isActive : Bool
  price : ℚ
  quantity : ℚ
  createdAt : ℚ
  updatedAt : ℚ
  pharmacyId : Option Pharmacy
deriving DecidableEq

/-- A ranked record: the spread object `{...item.toObject(), distance}`.
The distance carrier is a parameter so that the sort can be stated both
over the reals (as in the pipeline) and over the rationals (for concrete
evaluation). -/
structure Ranked (α : Type) : Type where
  med : Medicine
  distance : Option α

instance {α : Type} [DecidableEq α] : DecidableEq (Ranked α) :=
  fun a b =>
    match a, b with
    | ⟨m1, d1⟩, ⟨m2, d2⟩ =>
      match decEq m1 m2, decEq d1 d2 with
      | isTrue h1, isTrue h2 => isTrue (by rw [h1, h2])
      | isFalse h1, _ => isFalse (fun h => h1 (congrArg Ranked.med h))
      | _, isFalse h2 => isFalse (fun h => h2 (congrArg Ranked.distance h))

/-! ### The filter model

A MongoDB filter document is modelled as an association list from keys to
conditions; its semantics is the conjunction of its entries.  The two kinds
of conditions the pipeline builds are plain equality conditions (such as
`isActive: true`) and the `$or` block over name/description regexes built
from a search term. -/

/-- A condition bound to one key of a filter document. -/
inductive MCond : Type where
  | activeIs (b : Bool)
  | pharmacyIdIs (p : Option Pharmacy)
  | searchOr (pat : JSStr)
deriving DecidableEq

/-- A filter document: keys with their conditions, conjoined. -/
abbrev MFilter := List (JSStr × MCond)

/-- Semantics of one condition at one record. -/
def evalCond (c : MCond) (m : Medicine) : Bool :=
  match c with
  | MCond.activeIs b => m.isActive = b
  | MCond.pharmacyIdIs p => m.pharmacyId = p
  | MCond.searchOr pat => iRegexTest pat m.name || iRegexTest pat m.description

/-- Semantics of a filter document: all entries hold. -/
def evalFilter (f : MFilter) (m : Medicine) : Bool :=
  f.all (fun kc => evalCond kc.2 m)

/-- Object-spread update `{...f, k: c}`: an existing binding of `k` is
overwritten in place, otherwise the new binding is appended. -/
def setKey (f : MFilter) (k : JSStr) (c : MCond) : MFilter :=
  match f with
  | [] => [(k, c)]
  | (k0, c0) :: rest =>
      if k0 = k then (k0, c) :: rest else (k0, c0) :: setKey rest k c

/-- The filter composition of the search middleware: when the raw search
parameter is truthy and trims to a nonempty string, the `$or` block of
name/description regexes over the trimmed term is spread into the filter;
otherwise the filter is unchanged. -/
def composeFilter (base : MFilter) (searchQ : Option JSStr) : MFilter :=
  match searchQ with
  | none => base
  | some s =>
      if (jtrim s).isEmpty then base
      else setKey base (jstr "$or") (MCond.searchOr (jtrim s))

/-- Whether a search parameter is absent, blank, or whitespace-only. -/
def blankSearch (searchQ : Option JSStr) : Bool :=
  match searchQ with
  | none => true
  | some s => (jtrim s).isEmpty

/-! ### The distance sort

The comparator of the search middleware is
  `(a, b) => a.distance === null && b.distance === null ? 0
           : a.distance === null ? 1 : b.distance === null ? -1
           : a.distance - b.distance`
(written in the source as three early returns).  `distLe a b` is the
relation "the comparator does not order a after b", i.e. compare(a,b) <= 0;
the stable sort determined by a consistent comparator is modelled by
insertion sort over this relation. -/

/-- Comparator relation on optional distances: compare(a, b) <= 0. -/
def distLe {α : Type} [LinearOrder α] : Option α → Option α → Prop
  | none, none => True
  | none, some _ => False
  | some _, none => True
  | some x, some y => x ≤ y

instance distLeDecidable {α : Type} [LinearOrder α] :
    ∀ a b : Option α, Decidable (distLe a b)
  | none, none => isTrue trivial
  | none, some _ => isFalse (fun h => h)
  | some _, none => isTrue trivial
  | some x, some y => inferInstanceAs (Decidable (x ≤ y))

/-- The comparator relation lifted to ranked records. -/
def rankRel {α : Type} [LinearOrder α] (a b : Ranked α) : Prop :=
  distLe a.distance b.distance

instance rankRelDecidable {α : Type} [LinearOrder α] :
    DecidableRel (rankRel (α := α)) :=
  fun a b => distLeDecidable a.distance b.distance

instance rankRelTotal {α : Type} [LinearOrder α] :
    IsTotal (Ranked α) (rankRel (α := α)) where
  total a b := by
    cases ha : a.distance with
    | none =>
      cases hb : b.distance with
      | none => exact Or.inl (by simp [rankRel, ha, hb, distLe])
      | some y => exact Or.inr (by simp [rankRel, ha, hb, distLe])
    | some x =>
      cases hb : b.distance with
      | none => exact Or.inl (by simp [rankRel, ha, hb, distLe])
      | some y =>
        rcases le_total x y with h | h
        · exact Or.inl (by simp [rankRel, ha, hb, distLe, h])
        · exact Or.inr (by simp [rankRel, ha, hb, distLe, h])

instance rankRelTrans {α : Type} [LinearOrder α] :
    IsTrans (Ranked α) (rankRel (α := α)) where
  trans a b c hab hbc := by
    cases ha : a.distance with
    | none =>
      cases hb : b.distance with
      | none =>
        cases hc : c.distance with
        | none => simp [rankRel, ha, hc, distLe]
        | some z => simp [rankRel, hb, hc, distLe] at hbc
      | some y => simp [rankRel, ha, hb, distLe] at hab
    | some x =>
      cases hc : c.distance with
      | none => simp [rankRel, ha, hc, distLe]
      | some z =>
        cases hb : b.distance with
        | none => simp [rankRel, hb, hc, distLe] at hbc
        | some y =>
          simp only [rankRel, ha, hb, hc, distLe] at hab hbc ⊢
          exact le_trans hab hbc

/-- The stable distance-ascending sort performed by the search middleware
(`data.sort(comparator)` with the null-aware comparator above). -/
def sortByDistance {α : Type} [LinearOrder α] (l : List (Ranked α)) :
    List (Ranked α) :=
  List.insertionSort rankRel l

/-! ### The coordinate distance function (haversine) -/

/-- Model of Math.atan2 over the reals, by the usual case split on the
signs of the arguments (atan2(0, 0) is 0, as in JavaScript for +0). -/
noncomputable def jsAtan2 (y x : ℝ) : ℝ :=
  if 0 < x then Real.arctan (y / x)
  else if x < 0 then
    (if 0 ≤ y then Real.arctan (y / x) + Real.pi
     else Real.arctan (y / x) - Real.pi)
  else
    (if 0 < y then Real.pi / 2 else if y < 0 then -(Real.pi / 2) else 0)

/-- The intermediate value `a` of calculateDistance:
`sin(dLat/2)*sin(dLat/2) + cos(lat1*pi/180)*cos(lat2*pi/180)*sin(dLon/2)*sin(dLon/2)`
with `dLat = (lat2-lat1)*pi/180` and `dLon = (lon2-lon1)*pi/180`. -/
noncomputable def haverA (lat1 lon1 lat2 lon2 : ℝ) : ℝ :=
  Real.sin ((lat2 - lat1) * Real.pi / 180 / 2) *
      Real.sin ((lat2 - lat1) * Real.pi / 180 / 2) +
    Real.cos (lat1 * Real.pi / 180) * Real.cos (lat2 * Real.pi / 180) *
      (Real.sin ((lon2 - lon1) * Real.pi / 180 / 2) *
        Real.sin ((lon2 - lon1) * Real.pi / 180 / 2))

/-- calculateDistance of the search middleware: the haversine great-circle
distance with Earth radius R = 6371 km,
`c = 2 * atan2(sqrt(a), sqrt(1-a))` and result `R * c`. -/
noncomputable def calculateDistance (lat1 lon1 lat2 lon2 : ℝ) : ℝ :=
  6371 *
    (2 * jsAtan2 (Real.sqrt (haverA lat1 lon1 lat2 lon2))
      (Real.sqrt (1 - haverA lat1 lon1 lat2 lon2)))

/-- Rounding to two decimals: `parseFloat(d.toFixed(2))`, modelled as
rounding d*100 to the nearest integer (ties up, as toFixed does for the
nonnegative distances produced here) and dividing by 100. -/
noncomputable def round2 (x : ℝ) : ℝ := ((round (x * 100) : ℤ) : ℝ) / 100

/-- The distance annotation of one record in the ranked branch:
`{...item.toObject(), distance: distance ? parseFloat(distance.toFixed(2)) : null}`
where `distance` is calculateDistance when the populated pharmacy has a
location and stays null otherwise.  A computed distance of 0 is falsy in
JavaScript, so the conditional maps it to null as well. -/
noncomputable def annotateItem (uLat uLon : ℝ) (m : Medicine) : Ranked ℝ :=
  match m.pharmacyId with
  | none => ⟨m, none⟩
  | some ph =>
    match ph.location with
    | none => ⟨m, none⟩
    | some loc =>
      let d := calculateDistance uLat uLon (loc.latitude : ℝ) (loc.longitude : ℝ)
      ⟨m, if d = 0 then none else some (round2 d)⟩

/-- The Geo Ranker: annotate every record with its distance, then sort by
distance with the stable null-aware comparator. -/
noncomputable def rankStep (uLat uLon : ℝ) (l : List Medicine) :
    List (Ranked ℝ) :=
  sortByDistance (l.map (annotateItem uLat uLon))

/-! ### Server-side sort (Strategy A backing-collection model)

`.sort({ [sortBy]: order })` sorts by one field, ascending for 1 and
descending for -1.  Field values are compared in the BSON order relevant
here: missing values before numbers before strings. -/

/-- A sortable field value. -/
inductive BVal : Type where
  | missing
  | num (q : ℚ)
  | str (s : JSStr)
deriving DecidableEq

/-- Lexicographic comparison of JS strings by code point. -/
def strLe : JSStr → JSStr → Bool
  | [], _ => true
  | _ :: _, [] => false
  | a :: as, b :: bs =>
      if a.toNat < b.toNat then true
      else if b.toNat < a.toNat then false
      else strLe as bs

/-- BSON-style ordering of field values. -/
def bvalLe : BVal → BVal → Bool
  | BVal.missing, _ => true
  | BVal.num _, BVal.missing => false
  | BVal.num x, BVal.num y => decide (x ≤ y)
  | BVal.num _, BVal.str _ => true
  | BVal.str _, BVal.missing => false
  | BVal.str _, BVal.num _ => false
  | BVal.str a, BVal.str b => strLe a b

/-- The value a medicine document exposes under a sort key. -/
def fieldVal (m : Medicine) (f : JSStr) : BVal :=
  if f = jstr "name" then BVal.str m.name
  else if f = jstr "price" then BVal.num m.price
  else if f = jstr "quantity" then BVal.num m.quantity
  else if f = jstr "updatedAt" then BVal.num m.updatedAt
  else if f = jstr "createdAt" then BVal.num m.createdAt
  else BVal.missing

/-- The ordering induced by the sort specification `{ [sortBy]: order }`. -/
def mongoLe (f : JSStr) (ord : Int) (a b : Medicine) : Bool :=
  if ord = -1 then bvalLe (fieldVal b f) (fieldVal a f)
  else bvalLe (fieldVal a f) (fieldVal b f)

/-- Server-side sort of the matching documents. -/
def mongoSort (f : JSStr) (ord : Int) (l : List Medicine) : List Medicine :=
  List.insertionSort (fun a b => mongoLe f ord a b = true) l

/-! ### The middleware chain -/

/-- The request parameters consumed by the pipeline. -/
structure Query : Type where
  page : Option JSStr
  limit : Option JSStr
  search : Option JSStr
  sort : Option JSStr
  order : Option JSStr
  latitude : Option JSStr
  longitude : Option JSStr

/-- Requester coordinate resolution: explicit query coordinates are used
when both raw strings are truthy, falling back to the authenticated user
location; the result is the pair (userLat, userLon) when both are non-null
and not NaN, and none otherwise (the unranked state). -/
def resolveCoords (q : Query) (userLoc : Option PhLoc) : Option (ℚ × ℚ) :=
  if strTruthy q.latitude && strTruthy q.longitude then
    match parseFloatJS q.latitude, parseFloatJS q.longitude with
    | some la, some lo => some (la, lo)
    | _, _ => none
  else
    match userLoc with
    | some loc => some (loc.latitude, loc.longitude)
    | none => none

/-- The materialized result stored in req.searchResults: plain documents
in the unranked state, distance-annotated documents in the ranked state. -/
inductive SResults : Type where
  | plain (l : List Medicine)
  | ranked (l : List (Ranked ℝ))

/-- Number of materialized items. -/
def srLength : SResults → Nat
  | SResults.plain l => l.length
  | SResults.ranked l => l.length

/-- Slice the materialized items (Strategy B page extraction). -/
def srSlice : SResults → Int → Int → SResults
  | SResults.plain l, s, e => SResults.plain (jsSlice l s e)
  | SResults.ranked l, s, e => SResults.ranked (jsSlice l s e)

/-- The plain documents of a materialized result (ranked records project
to their underlying document). -/
def srItems : SResults → List Medicine
  | SResults.plain l => l
  | SResults.ranked l => l.map Ranked.med

/-- The search middleware: compose the filter, materialize every matching
document with no server-side limit, annotate and sort by distance when the
requester coordinates resolve, and store the result in req.searchResults
(unconditionally, in both states). -/
noncomputable def searchStep (db : List Medicine) (q : Query)
    (userLoc : Option PhLoc) (base : MFilter) : MFilter × SResults :=
  let f := composeFilter base q.search
  let data := db.filter (fun m => evalFilter f m)
  match resolveCoords q userLoc with
  | some (la, lo) => (f, SResults.ranked (rankStep (la : ℝ) (lo : ℝ) data))
  | none => (f, SResults.plain data)

/-- The pagination metadata object assembled by the paginate middleware. -/
structure PgMeta : Type where
  currentPage : Int
  totalPages : Int
  totalItems : Int
  itemsPerPage : Int
  hasNextPage : Bool
  hasPrevPage : Bool
deriving DecidableEq

/-- The metadata computation shared by both strategies:
`totalPages = Math.ceil(total / limit)`, `hasNextPage = page < totalPages`,
`hasPrevPage = page > 1`. -/
def mkMeta (page limit total : Int) : PgMeta :=
  { currentPage := page
    totalPages := jsCeilDiv total limit
    totalItems := total
    itemsPerPage := limit
    hasNextPage := decide (page < jsCeilDiv total limit)
    hasPrevPage := decide (1 < page) }

/-- Strategy A (server-side): filter, sort by the requested field and
direction, skip/limit on the backing collection, and an independent count
of the matching documents. -/
def strategyA (db : List Medicine) (f : MFilter) (sortBy : JSStr)
    (ord : Int) (skip limit : Int) : List Medicine × Int :=
  let ms := db.filter (fun m => evalFilter f m)
  (((mongoSort sortBy ord ms).drop skip.toNat).take limit.toNat,
    (ms.length : Int))

/-- The paginate middleware: parse page/limit with the `|| default`
fallbacks; when req.searchResults is present, slice it in memory
(Strategy B); otherwise run Strategy A against the backing collection.
Both branches feed the shared metadata computation. -/
noncomputable def paginateStep (db : List Medicine) (q : Query)
    (sr : Option SResults) (f : MFilter) : SResults × PgMeta :=
  let page := intParam q.page 1
  let limit := intParam q.limit 10
  let skip := (page - 1) * limit
  match sr with
  | some r => (srSlice r skip (skip + limit), mkMeta page limit (srLength r : Int))
  | none =>
      let res := strategyA db f (sortByOf q.sort) (orderOf q.order) skip limit
      (SResults.plain res.1, mkMeta page limit res.2)

/-- The success envelope assembled by the controllers: `count` is the
length of the page data, the page data itself, and the pagination object. -/
structure ListResponse : Type where
  count : Nat
  medicines : SResults
  pagination : PgMeta

/-- `sendSuccess(res, { count: medicines.length, medicines, pagination })`. -/
def mkListResponse (items : SResults) (meta : PgMeta) : ListResponse :=
  { count := srLength items, medicines := items, pagination := meta }

/-- The base filter of the public listing route: `find({ isActive: true })`. -/
def activeBase : MFilter := [(jstr "isActive", MCond.activeIs true)]

/-- GET /api/medicines: baseQuery with the active filter, then the search
middleware, then the paginate middleware (searchResults always present),
then the controller envelope. -/
noncomputable def listMedicines (db : List Medicine) (q : Query)
    (userLoc : Option PhLoc) : ListResponse :=
  let s := searchStep db q userLoc activeBase
  let p := paginateStep db q (some s.2) s.1
  mkListResponse p.1 p.2

/-- GET /api/medicines/pharmacy/all: the same chain over the empty base
filter (`find()`). -/
noncomputable def listMedicinesPharmacy (db : List Medicine) (q : Query)
    (userLoc : Option PhLoc) : ListResponse :=
  let s := searchStep db q userLoc []
  let p := paginateStep db q (some s.2) s.1
  mkListResponse p.1 p.2

/-! ### Concrete data used to evaluate the pipeline -/

/-- Build a medicine document with the fields the pipeline reads. -/
def mkMed (nm ds : String) (pr cr : ℚ) (ph : Option Pharmacy) : Medicine :=
  { name := jstr nm, description := jstr ds, isActive := true, price := pr,
    quantity := 1, createdAt := cr, updatedAt := cr, pharmacyId := ph }

/-- A request with every parameter absent. -/
def emptyQuery : Query :=
  { page := none, limit := none, search := none, sort := none,
    order := none, latitude := none, longitude := none }

/-- A sample record for filter evaluation. -/
def sampleMed : Medicine := mkMed "Paracetamol pain relief" "fever" 3 1 none

def c1m1 : Medicine := mkMed "alpha" "a" 5 1 none

def c1m2 : Medicine := mkMed "beta" "b" 1 2 none

def c1db : List Medicine := [c1m1, c1m2]

/-- An unranked listing request asking for an ascending price sort. -/
def c1q : Query :=
  { page := none, limit := none, search := none, sort := some (jstr "price"),
    order := some (jstr "asc"), latitude := none, longitude := none }

def c3med : Medicine := mkMed "AAB" "plain description" 1 1 none

def c4A : Ranked ℚ := ⟨mkMed "A" "" 1 1 none, none⟩

def c4B : Ranked ℚ := ⟨mkMed "B" "" 1 2 none, some 5⟩

def c4C : Ranked ℚ := ⟨mkMed "C" "" 1 3 none, some 2⟩

def c4D : Ranked ℚ := ⟨mkMed "D" "" 1 4 none, none⟩

def c5ph : Pharmacy := { pharmacyName := jstr "P", location := some ⟨30, 31⟩ }

def c5med : Medicine := mkMed "Zero" "zero distance" 1 1 (some c5ph)

/-- A two-item collection listed with pageSize 1. -/
def c10q : Query :=
  { page := none, limit := some (jstr "1"), search := none, sort := none,
    order := none, latitude := none, longitude := none }

/-! ### Helper lemmas -/

theorem jsAtan2_zero_one : jsAtan2 0 1 = 0 := by
  rw [jsAtan2, if_pos one_pos]
  simp

theorem haverA_self (x y : ℝ) : haverA x y x y = 0 := by
  unfold haverA
  rw [show (x - x) * Real.pi / 180 / 2 = 0 by ring,
    show (y - y) * Real.pi / 180 / 2 = 0 by ring, Real.sin_zero]
  ring

theorem calculateDistance_self (x y : ℝ) : calculateDistance x y x y = 0 := by
  unfold calculateDistance
  rw [haverA_self, Real.sqrt_zero, sub_zero, Real.sqrt_one, jsAtan2_zero_one]
  ring

theorem haverA_symm (lat1 lon1 lat2 lon2 : ℝ) :
    haverA lat1 lon1 lat2 lon2 = haverA lat2 lon2 lat1 lon1 := by
  unfold haverA
  rw [show (lat1 - lat2) * Real.pi / 180 / 2
      = -((lat2 - lat1) * Real.pi / 180 / 2) by ring,
    show (lon1 - lon2) * Real.pi / 180 / 2
      = -((lon2 - lon1) * Real.pi / 180 / 2) by ring,
    Real.sin_neg, Real.sin_neg]
  ring

theorem jsCeilDiv_eq_ceil (t l : Int) (hl : 0 < l) :
    jsCeilDiv t l = ⌈(t : ℚ) / (l : ℚ)⌉ := by
  obtain ⟨n, rfl⟩ : ∃ n : ℕ, l = (n : ℤ) :=
    ⟨l.toNat, (Int.toNat_of_nonneg hl.le).symm⟩
  rw [jsCeilDiv, if_pos hl,
    show (-t) / ((n : ℕ) : ℤ) = ⌊((-t : ℤ) : ℚ) / ((n : ℕ) : ℚ)⌋ from
      (Rat.floor_intCast_div_natCast (-t) n).symm,
    show ((-t : ℤ) : ℚ) = -(t : ℚ) by push_cast; ring,
    neg_div, Int.floor_neg, neg_neg]
  norm_cast

theorem setKey_of_not_mem (f : MFilter) (k : JSStr) (c : MCond)
    (h : k ∉ f.map Prod.fst) : setKey f k c = f ++ [(k, c)] := by
  induction f with
  | nil => rfl
  | cons e rest ih =>
    obtain ⟨k0, c0⟩ := e
    simp only [List.map_cons, List.mem_cons] at h
    push_neg at h
    simp only [setKey]
    rw [if_neg (fun hek => h.1 hek.symm), ih h.2]
    rfl

theorem evalFilter_append (f g : MFilter) (m : Medicine) :
    evalFilter (f ++ g) m = (evalFilter f m && evalFilter g m) := by
  simp [evalFilter, List.all_append]

theorem jsSlice_length_le {α : Type} (xs : List α) (s e : Int) :
    (jsSlice xs s e).length ≤ xs.length := by
  unfold jsSlice
  simp only [List.length_take, List.length_drop]
  omega

/-! ### The claims -/

/-- Claim C9: the claim states that an unranked listing request that omits
the order parameter sorts descending, and that an omitted sortField
defaults to creation time.  The code `req.query.order === 'desc' ? -1 : 1`
makes the omitted-order direction ascending (1), contradicting the routes
own documented default of desc; the sortField default createdAt holds.
This theorem evaluates the parsing at the failing input. -/
theorem c9_default_sort_direction :
    sortByOf none = jstr "createdAt" ∧ orderOf none = 1 ∧
    orderOf (some (jstr "desc")) = -1 ∧ (1 : Int) ≠ -1 := by decide

/-- Claim C3: the claim states that a search term with pattern-special
characters matches only as a literal substring.  The code compiles the raw
trimmed term with `new RegExp(term, 'i')` and no escaping, so the term
"A+B" matches a record named "AAB" (one-or-more A followed by B) even
though "A+B" is not a literal substring of the name or the description:
the unescaped pattern expands its own matching semantics. -/
theorem c3_unescaped_pattern_overmatches :
    evalFilter (composeFilter activeBase (some (jstr "A+B"))) c3med = true ∧
    containsCI (jstr "A+B") c3med.name = false ∧
    containsCI (jstr "A+B") c3med.description = false := by decide

/-- Claim C1: the claim states that in the Unranked state the paginator
runs Strategy A directly against the backing collection with the requested
sortField/sortDirection.  On the wired listing route the search middleware
always materializes the full result set into req.searchResults, so the
paginate middleware always takes the in-memory branch: for an unranked
request with sort=price, order=asc over a collection whose insertion order
disagrees with the price order, the pipeline returns the insertion order
while Strategy A (the none-searchResults branch of the same paginator)
returns the price-ascending order. -/
theorem c1_unranked_skips_strategyA :
    srItems (listMedicines c1db c1q none).medicines = [c1m1, c1m2] ∧
    srItems (paginateStep c1db c1q none
      (composeFilter activeBase c1q.search)).1 = [c1m2, c1m1] ∧
    srItems (listMedicines c1db c1q none).medicines ≠
      srItems (paginateStep c1db c1q none
        (composeFilter activeBase c1q.search)).1 := by decide

/-- Claim C10: in every successful listing response, data.count is the
number of items on the returned page (the length of the page slice), not
totalItems; with two matching records and pageSize 1 the envelope reports
count 1 while pagination.totalItems is 2. -/
theorem c10_count_is_page_length :
    (∀ (db : List Medicine) (q : Query) (u : Option PhLoc),
      (listMedicines db q u).count =
        srLength (listMedicines db q u).medicines ∧
      (listMedicinesPharmacy db q u).count =
        srLength (listMedicinesPharmacy db q u).medicines) ∧
    (listMedicines c1db c10q none).count = 1 ∧
    (listMedicines c1db c10q none).pagination.totalItems = 2 := by
  refine ⟨fun db q u => ⟨rfl, rfl⟩, by decide, by decide⟩

/-- Claim C6 (amended): page and pageSize parameters that are non-numeric
(parseInt gives NaN) or parse to 0 fall back to the defaults 1 and 10; the
in-memory slice is total and never yields more items than the sequence
holds, so pagination never fails on malformed paging parameters.  (Negative
values are not clamped — see the counterexample — and no configured
maximum exists.) -/
theorem c6_fallback_and_total_slice (p : Option JSStr)
    (xs : List Medicine) (s e : Int)
    (hbad : parseIntJS p = none ∨ parseIntJS p = some 0) :
    intParam p 1 = 1 ∧ intParam p 10 = 10 ∧
    (jsSlice xs s e).length ≤ xs.length := by
  refine ⟨?_, ?_, jsSlice_length_le xs s e⟩ <;>
    rcases hbad with h | h <;> simp [intParam, h, jsOrInt]

/-- Claim C6, counterexample to the claim as stated: a page parameter of
"-5" is below 1 but is not clamped to the default (parseInt gives -5,
which is truthy), and a pageSize of "1000" exceeds the documented maximum
of 100 yet passes through unchanged. -/
theorem c6_counterexample :
    intParam (some (jstr "-5")) 1 = -5 ∧
    intParam (some (jstr "1000")) 10 = 1000 ∧
    ((-5 : Int) < 1) ∧ intParam (some (jstr "-5")) 1 ≠ 1 := by decide

theorem c6_witness :
    intParam (some (jstr "abc")) 1 = 1 :=
  (c6_fallback_and_total_slice (some (jstr "abc")) [] 0 0
    (Or.inl (by decide))).1

/-- Claim C4: the Geo Ranker ordering is the stable sort by the null-aware
comparator: the result is a permutation of the input, pairwise ordered by
the comparator relation (so ascending by distance, with every null-distance
record after every numeric-distance record, since the relation never lets
a null precede a number), any comparator-tied pair keeps its input order,
and the concrete input [A(no dist), B(5), C(2), D(no dist)] sorts to
[C, B, A, D]. -/
theorem c4_stable_distance_sort :
    (∀ l : List (Ranked ℚ), List.Perm (sortByDistance l) l) ∧
    (∀ l : List (Ranked ℚ), (sortByDistance l).Pairwise rankRel) ∧
    (∀ l : List (Ranked ℚ), (sortByDistance l).Pairwise
      (fun a b => a.distance = none → b.distance = none)) ∧
    (∀ (a b : Ranked ℚ) (l : List (Ranked ℚ)),
      rankRel a b → List.Sublist [a, b] l →
        List.Sublist [a, b] (sortByDistance l)) ∧
    sortByDistance [c4A, c4B, c4C, c4D] = [c4C, c4B, c4A, c4D] := by
  refine ⟨fun l => List.perm_insertionSort _ l, fun l => ?_, fun l => ?_,
    fun a b l hab hsub => List.pair_sublist_insertionSort hab hsub, by decide⟩
  · exact List.sorted_insertionSort (r := rankRel (α := ℚ)) l
  · refine (List.sorted_insertionSort (r := rankRel (α := ℚ)) l).imp ?_
    intro a b hab ha
    cases hb : b.distance with
    | none => rfl
    | some y => rw [rankRel, ha, hb] at hab; exact absurd hab (fun h => h)

theorem c4_witness :
    List.Sublist [c4A, c4D] (sortByDistance [c4A, c4B, c4C, c4D]) :=
  c4_stable_distance_sort.2.2.2.1 c4A c4D [c4A, c4B, c4C, c4D]
    (by decide)
    (List.Sublist.cons₂ c4A (List.Sublist.cons c4B
      (List.Sublist.cons c4C (List.Sublist.refl [c4D]))))

/-- Claim C2: for total >= 0, page >= 1, pageSize >= 1 the metadata
satisfies totalPages = ceil(total / pageSize) (0 when total is 0),
hasNextPage holds exactly when page * pageSize < totalItems, equivalently
page < totalPages, and hasPrevPage holds exactly when page > 1; both
pagination strategies feed the same metadata computation mkMeta. -/
theorem c2_pagination_metadata (page limit total : Int)
    (db : List Medicine) (q : Query) (sr : SResults) (f : MFilter)
    (ht : 0 ≤ total) (hp : 1 ≤ page) (hl : 1 ≤ limit) :
    (mkMeta page limit total).totalPages = ⌈(total : ℚ) / (limit : ℚ)⌉ ∧
    (mkMeta page limit 0).totalPages = 0 ∧
    ((mkMeta page limit total).hasNextPage = true ↔ page * limit < total) ∧
    ((mkMeta page limit total).hasNextPage = true ↔
      page < (mkMeta page limit total).totalPages) ∧
    ((mkMeta page limit total).hasPrevPage = true ↔ 1 < page) ∧
    (paginateStep db q (some sr) f).2 =
      mkMeta (intParam q.page 1) (intParam q.limit 10) (srLength sr : Int) ∧
    (paginateStep db q none f).2 =
      mkMeta (intParam q.page 1) (intParam q.limit 10)
        (strategyA db f (sortByOf q.sort) (orderOf q.order)
          ((intParam q.page 1 - 1) * intParam q.limit 10)
          (intParam q.limit 10)).2 := by
  have hl0 : (0 : Int) < limit := by omega
  have hlq : (0 : ℚ) < (limit : ℚ) := by exact_mod_cast hl0
  refine ⟨?_, ?_, ?_, ?_, ?_, rfl, rfl⟩
  · exact jsCeilDiv_eq_ceil total limit hl0
  · show jsCeilDiv 0 limit = 0
    unfold jsCeilDiv
    split_ifs <;> simp
  · show decide (page < jsCeilDiv total limit) = true ↔ page * limit < total
    rw [decide_eq_true_iff, jsCeilDiv_eq_ceil total limit hl0, Int.lt_ceil,
      lt_div_iff₀ hlq]
    exact_mod_cast Iff.rfl
  · show decide (page < jsCeilDiv total limit) = true ↔
      page < jsCeilDiv total limit
    exact decide_eq_true_iff
  · show decide (1 < page) = true ↔ 1 < page
    exact decide_eq_true_iff

theorem c2_witness :
    ((mkMeta 2 10 15).hasNextPage = true ↔ (2 : Int) * 10 < 15) ∧
    ((mkMeta 2 10 15).hasPrevPage = true ↔ (1 : Int) < 2) :=
  ⟨(c2_pagination_metadata 2 10 15 [] emptyQuery (SResults.plain []) []
      (by decide) (by decide) (by decide)).2.2.1,
   (c2_pagination_metadata 2 10 15 [] emptyQuery (SResults.plain []) []
      (by decide) (by decide) (by decide)).2.2.2.2.1⟩

/-- Claim C5: the claim states that with finite requester coordinates,
distanceKm is null exactly when the owner has no location.  The code maps
the computed distance through `distance ? parseFloat(distance.toFixed(2)) :
null`, and 0 is falsy in JavaScript: a record whose pharmacy sits exactly
at the requester coordinates (30, 31) has a computed distance of 0 and is
annotated with a null distance even though its owner location is present. -/
theorem c5_zero_distance_nulled :
    (annotateItem 30 31 c5med).distance = none ∧
    c5med.pharmacyId = some c5ph ∧
    c5ph.location = some ⟨30, 31⟩ := by
  refine ⟨?_, rfl, rfl⟩
  have h30 : (((30 : ℚ) : ℝ)) = (30 : ℝ) := by norm_num
  have h31 : (((31 : ℚ) : ℝ)) = (31 : ℝ) := by norm_num
  show (annotateItem 30 31 c5med).distance = none
  simp only [annotateItem, c5med, mkMed, c5ph, h30, h31,
    calculateDistance_self, if_pos]

/-- Claim C7, counterexample to the claim as stated: the claim says that
for a non-blank searchTerm the composed filter is the conjunction of
baseFilter with a case-insensitive SUBSTRING predicate over name and
description.  The code conjoins the unescaped compiled pattern instead:
for the term "A+B" and the record named "AAB", the composed filter
matches, while the conjunction of the base filter with the
case-insensitive literal-substring predicate over name and description
does not — so the composed filter is not that conjunction. -/
theorem c7_counterexample :
    evalFilter (composeFilter activeBase (some (jstr "A+B"))) c3med = true ∧
    (evalFilter activeBase c3med &&
      (containsCI (jtrim (jstr "A+B")) c3med.name ||
        containsCI (jtrim (jstr "A+B")) c3med.description)) = false := by
  decide

/-- Claim C7 (amended): compose(baseFilter, searchTerm) returns baseFilter
unchanged for an absent, blank, or whitespace-only term; otherwise the
result is the conjunction of baseFilter with the OR, over the name and
description fields, of the case-insensitive predicate obtained by
compiling the trimmed term as an (unescaped) pattern — not the literal
substring predicate, which the counterexample separates.  This holds for
any base filter that does not already bind the key used for the OR block
(the spread would overwrite it; the base filters built by the routes
never bind it). -/
theorem c7_compose_filter (base : MFilter) (s : JSStr) (m : Medicine)
    (hOr : jstr "$or" ∉ base.map Prod.fst) :
    (∀ q : Option JSStr, blankSearch q = true → composeFilter base q = base) ∧
    ((jtrim s).isEmpty = false →
      evalFilter (composeFilter base (some s)) m =
        (evalFilter base m &&
          (iRegexTest (jtrim s) m.name ||
            iRegexTest (jtrim s) m.description))) := by
  constructor
  · intro q hq
    cases q with
    | none => rfl
    | some s0 =>
      simp only [blankSearch] at hq
      simp [composeFilter, hq]
  · intro hs
    simp only [composeFilter, hs, Bool.false_eq_true, if_false]
    rw [setKey_of_not_mem base _ _ hOr, evalFilter_append]
    simp [evalFilter, evalCond]

theorem c7_witness :
    evalFilter (composeFilter activeBase (some (jstr " pain "))) sampleMed =
      (evalFilter activeBase sampleMed &&
        (iRegexTest (jtrim (jstr " pain ")) sampleMed.name ||
          iRegexTest (jtrim (jstr " pain ")) sampleMed.description)) :=
  (c7_compose_filter activeBase (jstr " pain ") sampleMed (by decide)).2
    (by decide)

/-- Claim C8: calculateDistance implements the haversine formula with
Earth radius 6371 km; it is symmetric in its two coordinate pairs, and the
distance from any point to itself is 0. -/
theorem c8_distance_symmetric_and_zero :
    (∀ lat1 lon1 lat2 lon2 : ℝ,
      calculateDistance lat1 lon1 lat2 lon2 =
        calculateDistance lat2 lon2 lat1 lon1) ∧
    (∀ x y : ℝ, calculateDistance x y x y = 0) := by
  constructor
  · intro lat1 lon1 lat2 lon2
    unfold calculateDistance
    rw [haverA_symm]
  · exact calculateDistance_self

end CureLink
